import Mathlib

/-!
Shallow embedding of the rule-based task-prioritization heuristic of the
task-manager repository, together with the surrounding `/prioritize` route
handler and the frontend success-path field normalization.

Embedded source locations:
* `backend/routes/tasks.js`, `generateRuleBasedPrioritization` and the
  `router.post('/prioritize')` handler;
* `src/services/aiService.ts`, `AIService.fallbackPrioritization` and the
  success path of `AIService.suggestPrioritization`.

Modelling conventions:
* timestamps are integer milliseconds since the epoch (`Int`), as produced by
  JavaScript `Date` subtraction;
* `Math.random()` is an explicit parameter: a single draw `r : ℚ` with
  `0 ≤ r < 1` for one task, or a stream `rand : Nat → ℚ` indexed by the
  position of the task in the mapped list;
* numbers in the confidence computation are modelled exactly over `ℚ`;
* a JavaScript object literal that omits a field is modelled by `Option`
  (`none` = the field is absent from the returned object).
-/

namespace TaskManager

/-- Task priority values: the `priority` field is one of the strings
`'low' | 'medium' | 'high'` in the source. -/
inductive Priority where
  | low : Priority
  | medium : Priority
  | high : Priority
deriving DecidableEq, Repr

/-- Task status values `'todo' | 'in-progress' | 'completed' | 'archived'`. -/
inductive Status where
  | todo : Status
  | inProgress : Status
  | completed : Status
  | archived : Status
deriving DecidableEq, Repr

/-- The fields of a task that the prioritization heuristic reads.
`dueDate` is optional (absent when the JS field is missing/null);
`timeSpent` is in minutes. `id` stands for `task._id.toString()` on the
backend and `task.id` on the frontend. -/
structure Task where
  id : String
  dueDate : Option Int
  priority : Priority
  timeSpent : Int
  status : Status
deriving DecidableEq, Repr

/-- One suggestion object `{ taskId, suggestedPriority, reason, confidence }`. -/
structure Suggestion where
  taskId : String
  suggestedPriority : Priority
  reason : String
  confidence : ℚ
deriving DecidableEq, Repr

/-- The response envelope `{ suggestions, insights, recommendations? }`.
`recommendations := none` models an object literal with no
`recommendations` field. -/
structure Envelope where
  suggestions : List Suggestion
  insights : List String
  recommendations : Option (List String)
deriving DecidableEq, Repr

/-- Milliseconds in one day, the `1000 * 60 * 60 * 24` of the source. -/
def msPerDay : Int := 1000 * 60 * 60 * 24

/-- Backend `Math.ceil((new Date(task.dueDate) - now) / (1000 * 60 * 60 * 24))`.
For integers `a` and a positive integer `b`, `⌈a / b⌉ = -((-a) ediv b)`
because `Int.ediv` rounds toward negative infinity for a positive divisor;
the lemma `daysUntilDue_eq_ceil` below proves this encoding equal to the
exact rational ceiling. -/
def daysUntilDue (due now : Int) : Int :=
  -((now - due) / msPerDay)

/-- Backend `const priorityWeights = { high: 30, medium: 15, low: 5 }`. -/
def priorityWeights : Priority → Int
  | Priority.high => 30
  | Priority.medium => 15
  | Priority.low => 5

/-- The `score` / `reasons` accumulation in the body of the backend
`tasks.map(task => ...)` inside `generateRuleBasedPrioritization`:
deadline urgency (first matching branch only), priority weight, time
investment, status consideration. -/
def ruleBasedScoreReasons (now : Int) (task : Task) : Int × List String :=
  -- let score = 0; let reasons = [];
  -- Deadline urgency
  let afterDeadline : Int × List String :=
    match task.dueDate with
    | some due =>
      let daysUntilDue := daysUntilDue due now
      if daysUntilDue ≤ 1 then (0 + 40, [] ++ ["Due very soon"])
      else if daysUntilDue ≤ 3 then (0 + 25, [] ++ ["Due within 3 days"])
      else if daysUntilDue ≤ 7 then (0 + 15, [] ++ ["Due this week"])
      else (0, [])
    | none => (0, [])
  -- Current priority weight
  let afterPriority : Int × List String :=
    (afterDeadline.1 + priorityWeights task.priority, afterDeadline.2)
  -- Time investment
  let afterTime : Int × List String :=
    if task.timeSpent > 120 then
      (afterPriority.1 + 20, afterPriority.2 ++ ["Significant time invested"])
    else afterPriority
  -- Status consideration
  if task.status = Status.inProgress then
    (afterTime.1 + 15, afterTime.2 ++ ["Currently in progress"])
  else afterTime

/-- The suggestion object returned for one task by the backend map body.
`rand` is the value drawn by `Math.random()` for this task. -/
def ruleBasedSuggestion (now : Int) (rand : ℚ) (task : Task) : Suggestion :=
  let sr := ruleBasedScoreReasons now task
  let score := sr.1
  let reasons := sr.2
  let suggestedPriority :=
    if score ≥ 60 then Priority.high
    else if score ≥ 30 then Priority.medium
    else Priority.low
  let joined := String.intercalate ", " reasons
  { taskId := task.id
    suggestedPriority := suggestedPriority
    reason := if joined = "" then "Based on current workload analysis" else joined
    confidence := min 95 (max 60 ((score : ℚ) + rand * 20)) }

/-- Backend `generateRuleBasedPrioritization(tasks)`: one suggestion per
task plus the two insights; the returned object literal has no
`recommendations` field. -/
def generateRuleBasedPrioritization (tasks : List Task) (now : Int)
    (rand : Nat → ℚ) : Envelope :=
  { suggestions := tasks.enum.map (fun p => ruleBasedSuggestion now (rand p.1) p.2)
    insights :=
      ["Prioritization based on deadlines, time investment, and current status",
       if (tasks.filter (fun t =>
             match t.dueDate with
             | some due => decide (due < now)
             | none => false)).length > 0
       then "You have overdue tasks that need immediate attention"
       else "No overdue tasks - good job staying on track!"]
    recommendations := none }

/-- Frontend `Math.ceil((new Date(task.dueDate).getTime() - now.getTime()) /
(1000 * 60 * 60 * 24))` from `AIService.fallbackPrioritization`, transcribed
separately from the backend copy. -/
def fallbackDaysUntilDue (due now : Int) : Int :=
  -((now - due) / msPerDay)

/-- Frontend `const priorityWeights = { high: 30, medium: 15, low: 5 }`. -/
def fallbackPriorityWeights : Priority → Int
  | Priority.high => 30
  | Priority.medium => 15
  | Priority.low => 5

/-- The `score` / `reasons` accumulation in the body of the frontend
`tasks.map(task => ...)` inside `AIService.fallbackPrioritization`. -/
def fallbackScoreReasons (now : Int) (task : Task) : Int × List String :=
  -- Deadline urgency
  let afterDeadline : Int × List String :=
    match task.dueDate with
    | some due =>
      let daysUntilDue := fallbackDaysUntilDue due now
      if daysUntilDue ≤ 1 then (0 + 40, [] ++ ["Due very soon"])
      else if daysUntilDue ≤ 3 then (0 + 25, [] ++ ["Due within 3 days"])
      else if daysUntilDue ≤ 7 then (0 + 15, [] ++ ["Due this week"])
      else (0, [])
    | none => (0, [])
  -- Current priority weight
  let afterPriority : Int × List String :=
    (afterDeadline.1 + fallbackPriorityWeights task.priority, afterDeadline.2)
  -- Time investment
  let afterTime : Int × List String :=
    if task.timeSpent > 120 then
      (afterPriority.1 + 20, afterPriority.2 ++ ["Significant time invested"])
    else afterPriority
  -- Status consideration
  if task.status = Status.inProgress then
    (afterTime.1 + 15, afterTime.2 ++ ["Currently in progress"])
  else afterTime

/-- The suggestion object returned for one task by the frontend map body. -/
def fallbackSuggestion (now : Int) (rand : ℚ) (task : Task) : Suggestion :=
  let sr := fallbackScoreReasons now task
  let score := sr.1
  let reasons := sr.2
  let suggestedPriority :=
    if score ≥ 60 then Priority.high
    else if score ≥ 30 then Priority.medium
    else Priority.low
  let joined := String.intercalate ", " reasons
  { taskId := task.id
    suggestedPriority := suggestedPriority
    reason := if joined = "" then "Based on current workload analysis" else joined
    confidence := min 95 (max 60 ((score : ℚ) + rand * 20)) }

/-- Frontend `AIService.fallbackPrioritization(tasks, projects)`: like the
backend version but the returned object also carries the four fixed
`recommendations` strings. -/
def fallbackPrioritization (tasks : List Task) (now : Int)
    (rand : Nat → ℚ) : Envelope :=
  { suggestions := tasks.enum.map (fun p => fallbackSuggestion now (rand p.1) p.2)
    insights :=
      ["Prioritization based on deadlines, time investment, and current status",
       if (tasks.filter (fun t =>
             match t.dueDate with
             | some due => decide (due < now)
             | none => false)).length > 0
       then "You have overdue tasks that need immediate attention"
       else "No overdue tasks - good job staying on track!"]
    recommendations := some
      ["Focus on high-priority items first",
       "Break large tasks into smaller, manageable chunks",
       "Use time-blocking to allocate focused work periods",
       "Review and adjust priorities weekly"] }

/-- What `router.post('/prioritize')` sends back: either `res.json(...)`
(status 200) or `res.status(500).json({ message })`. -/
inductive Response where
  | ok : Envelope → Response
  | serverError : String → Response
deriving DecidableEq, Repr

/-- Outcome of the OpenAI call made by the `/prioritize` handler, as observed
by the surrounding `try`/`catch` blocks:
* `callFailed refetch` — `openai.chat.completions.create` (or anything before
  it) threw; the outer catch refetches the eligible tasks, `refetch = none`
  when that refetch itself throws;
* `parseFailed` — the call succeeded but `JSON.parse` of the reply threw;
* `parsed env` — the reply parsed to the envelope `env`. -/
inductive AIOutcome where
  | callFailed : Option (List Task) → AIOutcome
  | parseFailed : AIOutcome
  | parsed : Envelope → AIOutcome
deriving Repr

/-- The `router.post('/prioritize')` handler of `backend/routes/tasks.js`,
after the eligible tasks (`status ≠ completed`) have been fetched.
The empty-list check precedes the prompt construction and the remote call,
so the result on an empty list does not depend on `ai` at all. -/
def prioritizeHandler (tasks : List Task) (now : Int) (rand : Nat → ℚ)
    (ai : AIOutcome) : Response :=
  if tasks.length = 0 then
    Response.ok
      { suggestions := []
        insights := ["No active tasks found to prioritize."]
        recommendations := none }
  else
    match ai with
    | AIOutcome.parsed env => Response.ok env
    | AIOutcome.parseFailed =>
        Response.ok (generateRuleBasedPrioritization tasks now rand)
    | AIOutcome.callFailed (some refetched) =>
        Response.ok (generateRuleBasedPrioritization refetched now rand)
    | AIOutcome.callFailed none =>
        Response.serverError "Server error generating prioritization"

/-- JavaScript values as far as the frontend success path inspects them:
`undef` models an absent property (`undefined`). -/
inductive Js where
  | undef : Js
  | null : Js
  | bool : Bool → Js
  | num : Int → Js
  | str : String → Js
  | arr : List Js → Js
  | obj : List (String × Js) → Js

/-- Property access `o[k]` on a parsed JSON value: `undefined` when the key
is missing or the value is not an object. -/
def jsGet (o : Js) (k : String) : Js :=
  match o with
  | Js.obj fields =>
    match fields.lookup k with
    | some v => v
    | none => Js.undef
  | _ => Js.undef

/-- JavaScript truthiness of the modelled values. -/
def truthy : Js → Bool
  | Js.undef => false
  | Js.null => false
  | Js.bool b => b
  | Js.num n => decide (n ≠ 0)
  | Js.str s => decide (s ≠ "")
  | Js.arr _ => true
  | Js.obj _ => true

/-- The JavaScript `a || b`. -/
def jsOr (a b : Js) : Js := if truthy a then a else b

/-- Whether a value is an array. -/
def Js.isArr : Js → Bool
  | Js.arr _ => true
  | _ => false

/-- The object built by the frontend `AIService.suggestPrioritization`
success path from the reply `data` of `makeRequest('/ai/prioritize')`:
`{ suggestions: data.suggestions || [], insights: data.insights || [],
recommendations: data.recommendations || [] }`. -/
structure PrioritizationView where
  suggestions : Js
  insights : Js
  recommendations : Js

/-- Frontend `suggestPrioritization` success path (no exception thrown by
`makeRequest`). -/
def suggestPrioritizationSuccess (data : Js) : PrioritizationView :=
  { suggestions := jsOr (jsGet data "suggestions") (Js.arr [])
    insights := jsOr (jsGet data "insights") (Js.arr [])
    recommendations := jsOr (jsGet data "recommendations") (Js.arr []) }

/-- Sample task due exactly one day after `now = 0` with over two hours of
invested time. -/
def dueTomorrowInvestedTask : Task :=
  { id := "t1", dueDate := some 86400000, priority := Priority.high
    timeSpent := 200, status := Status.todo }

/-- Sample task due exactly one day after `now = 0` with no invested time. -/
def dueTomorrowTask : Task :=
  { id := "t2", dueDate := some 86400000, priority := Priority.high
    timeSpent := 0, status := Status.todo }

/-- Sample task due ten days after `now = 0`. -/
def sampleTaskA : Task :=
  { id := "a", dueDate := some 864000000, priority := Priority.low
    timeSpent := 0, status := Status.todo }

/-- Sample task due two days after `now = 0`, otherwise like `sampleTaskA`. -/
def sampleTaskB : Task :=
  { id := "b", dueDate := some 172800000, priority := Priority.low
    timeSpent := 0, status := Status.todo }

/-- Sample task one day overdue at `now = 0`. -/
def overdueTask : Task :=
  { id := "o", dueDate := some (-86400000), priority := Priority.medium
    timeSpent := 0, status := Status.todo }

/-- A remote reply whose `suggestions` field is a (truthy) number rather
than an array. -/
def nonListReply : Js := Js.obj [("suggestions", Js.num 42)]

/-! ## Helper lemmas -/

/-- The integer-division encoding of `daysUntilDue` computes the exact
rational ceiling `⌈(due - now) / 86400000⌉` of the source. -/
lemma daysUntilDue_eq_ceil (due now : Int) :
    daysUntilDue due now = ⌈((due : ℚ) - (now : ℚ)) / (1000 * 60 * 60 * 24)⌉ := by
  have hq : (0:ℚ) < 1000 * 60 * 60 * 24 := by norm_num
  rw [eq_comm, Int.ceil_eq_iff]
  unfold daysUntilDue msPerDay
  constructor
  · rw [lt_div_iff₀ hq]
    have h : (-((now - due) / (1000 * 60 * 60 * 24)) - 1) * (1000 * 60 * 60 * 24)
        < due - now := by
      omega
    exact_mod_cast h
  · rw [div_le_iff₀ hq]
    have h : due - now
        ≤ -((now - due) / (1000 * 60 * 60 * 24)) * (1000 * 60 * 60 * 24) := by
      omega
    exact_mod_cast h

/-- Closed form of the backend score accumulator as a sum of the four
independent contributions. -/
lemma ruleBasedScore_eq (now : Int) (t : Task) :
    (ruleBasedScoreReasons now t).1 =
      (match t.dueDate with
       | none => 0
       | some due =>
         if daysUntilDue due now ≤ 1 then 40
         else if daysUntilDue due now ≤ 3 then 25
         else if daysUntilDue due now ≤ 7 then 15
         else 0)
      + priorityWeights t.priority
      + (if t.timeSpent > 120 then 20 else 0)
      + (if t.status = Status.inProgress then 15 else 0) := by
  obtain ⟨i, due, pri, ts, st⟩ := t
  cases due <;> simp only [ruleBasedScoreReasons] <;> split_ifs <;> simp

/-- The suggested priority is the threshold mapping of the accumulated
score. -/
lemma ruleBasedSuggestion_priority (now : Int) (r : ℚ) (t : Task) :
    (ruleBasedSuggestion now r t).suggestedPriority =
      (if (ruleBasedScoreReasons now t).1 ≥ 60 then Priority.high
       else if (ruleBasedScoreReasons now t).1 ≥ 30 then Priority.medium
       else Priority.low) := rfl

/-- Mapping two pointwise-equal functions over the same list gives the same
list. -/
lemma map_eq_of_forall {α β : Type} (l : List α) (f g : α → β) (h : ∀ a, f a = g a) :
    l.map f = l.map g := by
  have hfg : f = g := funext h
  rw [hfg]

/-- The second insight of the backend envelope is the conditional overdue
message. -/
lemma insight_snd (tasks : List Task) (now : Int) (rand : Nat → ℚ) :
    (generateRuleBasedPrioritization tasks now rand).insights.get? 1 =
      some (if (tasks.filter (fun t =>
             match t.dueDate with
             | some due => decide (due < now)
             | none => false)).length > 0
       then "You have overdue tasks that need immediate attention"
       else "No overdue tasks - good job staying on track!") := rfl

/-- JavaScript `a || []` never evaluates to `undefined`. -/
lemma jsOr_ne_undef (a : Js) : jsOr a (Js.arr []) ≠ Js.undef := by
  unfold jsOr
  by_cases h : truthy a = true
  · rw [if_pos h]
    intro heq
    subst heq
    simp [truthy] at h
  · rw [if_neg h]
    intro heq
    exact Js.noConfusion heq

/-- JavaScript `a || b` falls through to `b` when `a` is falsy. -/
lemma jsOr_of_falsy (a b : Js) (h : truthy a = false) : jsOr a b = b := by
  unfold jsOr
  rw [h]
  rfl

/-! ## Claim theorems -/

/-- C1: for every task and every `now`, the score is the sum of a deadline
contribution (only if `dueDate` is set, first matching branch of
`daysUntilDue = ⌈(dueDate - now) / 1 day⌉` being `≤ 1 ↦ 40`, `≤ 3 ↦ 25`,
`≤ 7 ↦ 15`, nothing beyond 7), plus the priority weight
(high 30 / medium 15 / low 5), plus 20 when `timeSpent > 120`, plus 15 when
the status is in-progress; and the output label is high iff `score ≥ 60`,
medium iff `30 ≤ score < 60`, and low iff `score < 30`. -/
theorem scoring_algorithm_and_label_mapping (now : Int) (r : ℚ) (t : Task) :
    (ruleBasedScoreReasons now t).1 =
      (match t.dueDate with
       | none => 0
       | some due =>
         if ⌈((due : ℚ) - (now : ℚ)) / (1000 * 60 * 60 * 24)⌉ ≤ 1 then 40
         else if ⌈((due : ℚ) - (now : ℚ)) / (1000 * 60 * 60 * 24)⌉ ≤ 3 then 25
         else if ⌈((due : ℚ) - (now : ℚ)) / (1000 * 60 * 60 * 24)⌉ ≤ 7 then 15
         else 0)
      + (match t.priority with
         | Priority.high => 30
         | Priority.medium => 15
         | Priority.low => 5)
      + (if t.timeSpent > 120 then 20 else 0)
      + (if t.status = Status.inProgress then 15 else 0)
    ∧ ((ruleBasedSuggestion now r t).suggestedPriority = Priority.high ↔
        60 ≤ (ruleBasedScoreReasons now t).1)
    ∧ ((ruleBasedSuggestion now r t).suggestedPriority = Priority.medium ↔
        30 ≤ (ruleBasedScoreReasons now t).1 ∧ (ruleBasedScoreReasons now t).1 < 60)
    ∧ ((ruleBasedSuggestion now r t).suggestedPriority = Priority.low ↔
        (ruleBasedScoreReasons now t).1 < 30) := by
  refine ⟨?_, ?_, ?_, ?_⟩
  · rw [ruleBasedScore_eq]
    obtain ⟨i, due, pri, ts, st⟩ := t
    cases due <;> cases pri <;> simp [← daysUntilDue_eq_ceil, priorityWeights]
  all_goals
    rw [ruleBasedSuggestion_priority]
    split_ifs with h1 h2 <;> simp_all <;> omega

/-- C2: for the same task list and the same `now`, the backend
`generateRuleBasedPrioritization` and the frontend
`AIService.fallbackPrioritization` produce, task by task, the same
`suggestedPriority` and the same `reason` (whatever either side draws from
its random source). -/
theorem backend_frontend_same_heuristic (tasks : List Task) (now : Int) (r1 r2 : Nat → ℚ) :
    ((generateRuleBasedPrioritization tasks now r1).suggestions.map
      (fun s => (s.suggestedPriority, s.reason)))
    = ((fallbackPrioritization tasks now r2).suggestions.map
      (fun s => (s.suggestedPriority, s.reason))) := by
  simp only [generateRuleBasedPrioritization, fallbackPrioritization, List.map_map]
  exact map_eq_of_forall _ _ _ (fun p => rfl)

/-- C3: with no eligible tasks, the `/prioritize` handler returns the fixed
`{ suggestions: [], insights: ["No active tasks found to prioritize."] }`
success response, whatever the remote AI call would have done (the result
does not depend on the `ai` outcome, so no remote call or scoring run is
consulted), and it is a `Response.ok`, not an error. -/
theorem prioritize_empty_short_circuit (now : Int) (rand : Nat → ℚ) (ai : AIOutcome) :
    prioritizeHandler [] now rand ai =
      Response.ok
        { suggestions := []
          insights := ["No active tasks found to prioritize."]
          recommendations := none } := rfl

/-- C4: for a non-empty task list whose members all have status other than
completed, the second insight is the overdue warning iff some task has a
due date strictly before `now` (and status not completed), and otherwise it
is the on-track message. -/
theorem overdue_insight_iff (tasks : List Task) (now : Int) (rand : Nat → ℚ)
    (hne : tasks ≠ []) (hstat : ∀ t ∈ tasks, t.status ≠ Status.completed) :
    ((generateRuleBasedPrioritization tasks now rand).insights.get? 1
        = some "You have overdue tasks that need immediate attention"
      ↔ ∃ t ∈ tasks, ∃ due, t.dueDate = some due ∧ due < now ∧ t.status ≠ Status.completed)
    ∧ ((generateRuleBasedPrioritization tasks now rand).insights.get? 1
        = some "No overdue tasks - good job staying on track!"
      ↔ ¬ ∃ t ∈ tasks, ∃ due, t.dueDate = some due ∧ due < now ∧ t.status ≠ Status.completed) := by
  have hpred : ∀ t : Task, ((match t.dueDate with
      | some due => decide (due < now)
      | none => false) = true) ↔ ∃ due, t.dueDate = some due ∧ due < now := by
    intro t
    cases h : t.dueDate <;> simp [h]
  have hcond : ((tasks.filter (fun t =>
        match t.dueDate with
        | some due => decide (due < now)
        | none => false)).length > 0)
      ↔ ∃ t ∈ tasks, ∃ due, t.dueDate = some due ∧ due < now ∧ t.status ≠ Status.completed := by
    rw [gt_iff_lt, ← List.countP_eq_length_filter, List.countP_pos_iff]
    constructor
    · rintro ⟨t, ht, hp⟩
      obtain ⟨due, hdue, hlt⟩ := (hpred t).1 hp
      exact ⟨t, ht, due, hdue, hlt, hstat t ht⟩
    · rintro ⟨t, ht, due, hdue, hlt, -⟩
      exact ⟨t, ht, (hpred t).2 ⟨due, hdue, hlt⟩⟩
  rw [insight_snd]
  by_cases hc : (tasks.filter (fun t =>
        match t.dueDate with
        | some due => decide (due < now)
        | none => false)).length > 0
  · rw [if_pos hc]
    exact ⟨iff_of_true rfl (hcond.1 hc),
           iff_of_false (by decide) (fun hn => hn (hcond.1 hc))⟩
  · rw [if_neg hc]
    exact ⟨iff_of_false (by decide) (fun hex => hc (hcond.2 hex)),
           iff_of_true rfl (fun hex => hc (hcond.2 hex))⟩

/-- C4 witness: a single one-day-overdue, not-completed task at `now = 0`. -/
theorem overdue_insight_iff_witness :
    ([overdueTask] ≠ ([] : List Task))
    ∧ (∀ t ∈ [overdueTask], t.status ≠ Status.completed)
    ∧ (((generateRuleBasedPrioritization [overdueTask] 0 (fun _ => 0)).insights.get? 1
        = some "You have overdue tasks that need immediate attention"
      ↔ ∃ t ∈ [overdueTask], ∃ due, t.dueDate = some due ∧ due < 0
          ∧ t.status ≠ Status.completed)
    ∧ ((generateRuleBasedPrioritization [overdueTask] 0 (fun _ => 0)).insights.get? 1
        = some "No overdue tasks - good job staying on track!"
      ↔ ¬ ∃ t ∈ [overdueTask], ∃ due, t.dueDate = some due ∧ due < 0
          ∧ t.status ≠ Status.completed)) :=
  ⟨by decide, by decide,
   overdue_insight_iff [overdueTask] 0 (fun _ => 0) (by decide) (by decide)⟩

/-- C5: the confidence is `min(95, max(60, score + r·20))` for the random
draw `r ∈ [0,1)` of `Math.random()` (so the jitter `r·20` lies in `[0,20)`),
and for every such draw the confidence lies in `[60, 95]`. -/
theorem confidence_range (now : Int) (t : Task) (r : ℚ) (h0 : 0 ≤ r) (h1 : r < 1) :
    (ruleBasedSuggestion now r t).confidence
        = min 95 (max 60 (((ruleBasedScoreReasons now t).1 : ℚ) + r * 20))
    ∧ 0 ≤ r * 20 ∧ r * 20 < 20
    ∧ 60 ≤ (ruleBasedSuggestion now r t).confidence
    ∧ (ruleBasedSuggestion now r t).confidence ≤ 95 := by
  have he : (ruleBasedSuggestion now r t).confidence
      = min 95 (max 60 (((ruleBasedScoreReasons now t).1 : ℚ) + r * 20)) := rfl
  refine ⟨he, by linarith, by linarith, ?_, ?_⟩
  · rw [he]
    exact le_min (by norm_num) (le_max_left _ _)
  · rw [he]
    exact min_le_left _ _

/-- C5 witness: the draw `r = 1/2` on `sampleTaskA` at `now = 0`. -/
theorem confidence_range_witness :
    (0:ℚ) ≤ 1/2 ∧ (1:ℚ)/2 < 1
    ∧ ((ruleBasedSuggestion 0 (1/2) sampleTaskA).confidence
        = min 95 (max 60 (((ruleBasedScoreReasons 0 sampleTaskA).1 : ℚ) + (1/2) * 20))
      ∧ 0 ≤ (1:ℚ)/2 * 20 ∧ (1:ℚ)/2 * 20 < 20
      ∧ 60 ≤ (ruleBasedSuggestion 0 (1/2) sampleTaskA).confidence
      ∧ (ruleBasedSuggestion 0 (1/2) sampleTaskA).confidence ≤ 95) :=
  ⟨by norm_num, by norm_num,
   confidence_range 0 sampleTaskA (1/2) (by norm_num) (by norm_num)⟩

/-- C6: the frontend fallback always carries exactly the four fixed
recommendation strings, while the backend fallback envelope carries no
`recommendations` field at all. -/
theorem recommendations_field_shapes (tasks : List Task) (now : Int) (rand : Nat → ℚ) :
    (fallbackPrioritization tasks now rand).recommendations =
      some ["Focus on high-priority items first",
            "Break large tasks into smaller, manageable chunks",
            "Use time-blocking to allocate focused work periods",
            "Review and adjust priorities weekly"]
    ∧ (generateRuleBasedPrioritization tasks now rand).recommendations = none :=
  ⟨rfl, rfl⟩

/-- C7 counterexample: a task due exactly one day from `now = 0` with
priority high but `timeSpent = 200 > 120` scores 90, not 70, so the claim
as stated (for every such task the score is 70) is false. -/
theorem one_day_high_priority_cex :
    dueTomorrowInvestedTask.dueDate = some (0 + msPerDay)
    ∧ dueTomorrowInvestedTask.priority = Priority.high
    ∧ (ruleBasedScoreReasons 0 dueTomorrowInvestedTask).1 ≠ 70 := by decide

/-- C7 amended: for every task due exactly one day from `now` with priority
high, `timeSpent ≤ 120` and status not in-progress, the score is
`40 + 30 = 70` and the label is high. -/
theorem one_day_high_priority_amended (now : Int) (r : ℚ) (t : Task) (due : Int)
    (hdue : t.dueDate = some due) (hday : due - now = msPerDay)
    (hp : t.priority = Priority.high) (hts : t.timeSpent ≤ 120)
    (hst : t.status ≠ Status.inProgress) :
    (ruleBasedScoreReasons now t).1 = 70
    ∧ (ruleBasedSuggestion now r t).suggestedPriority = Priority.high := by
  have hd : daysUntilDue due now = 1 := by
    unfold daysUntilDue msPerDay
    unfold msPerDay at hday
    omega
  have h2 : ¬ (t.timeSpent > 120) := by omega
  have hs : (ruleBasedScoreReasons now t).1 = 70 := by
    rw [ruleBasedScore_eq, hdue, hp]
    simp [hd, h2, hst, priorityWeights]
  refine ⟨hs, ?_⟩
  rw [ruleBasedSuggestion_priority, hs]
  norm_num

/-- C7 witness: `dueTomorrowTask` (due in exactly one day, priority high,
no invested time, status todo) at `now = 0`. -/
theorem one_day_high_priority_amended_witness :
    dueTomorrowTask.dueDate = some 86400000
    ∧ (86400000 - 0 : Int) = msPerDay
    ∧ dueTomorrowTask.priority = Priority.high
    ∧ dueTomorrowTask.timeSpent ≤ 120
    ∧ dueTomorrowTask.status ≠ Status.inProgress
    ∧ ((ruleBasedScoreReasons 0 dueTomorrowTask).1 = 70
       ∧ (ruleBasedSuggestion 0 0 dueTomorrowTask).suggestedPriority = Priority.high) :=
  ⟨rfl, by decide, rfl, by decide, by decide,
   one_day_high_priority_amended 0 0 dueTomorrowTask 86400000 rfl (by decide) rfl
     (by decide) (by decide)⟩

/-- C8: holding priority, time spent and status fixed, a task whose
`daysUntilDue` is `d2` scores at least as much as one whose `daysUntilDue`
is `d1`, whenever `2 ≤ d2 < d1 ≤ 10`. -/
theorem score_monotone_in_daysUntilDue (now : Int) (t1 t2 : Task) (du1 du2 d1 d2 : Int)
    (hp : t1.priority = t2.priority) (hts : t1.timeSpent = t2.timeSpent)
    (hst : t1.status = t2.status)
    (hdu1 : t1.dueDate = some du1) (hdu2 : t2.dueDate = some du2)
    (hd1 : daysUntilDue du1 now = d1) (hd2 : daysUntilDue du2 now = d2)
    (hlo : 2 ≤ d2) (hlt : d2 < d1) (hhi : d1 ≤ 10) :
    (ruleBasedScoreReasons now t1).1 ≤ (ruleBasedScoreReasons now t2).1 := by
  rw [ruleBasedScore_eq, ruleBasedScore_eq, hdu1, hdu2]
  dsimp only
  rw [hd1, hd2, hp, hts, hst]
  split_ifs <;> omega

/-- C8 witness: `sampleTaskA` (due in 10 days) against `sampleTaskB` (due in
2 days) at `now = 0`. -/
theorem score_monotone_in_daysUntilDue_witness :
    sampleTaskA.priority = sampleTaskB.priority
    ∧ sampleTaskA.timeSpent = sampleTaskB.timeSpent
    ∧ sampleTaskA.status = sampleTaskB.status
    ∧ sampleTaskA.dueDate = some 864000000
    ∧ sampleTaskB.dueDate = some 172800000
    ∧ daysUntilDue 864000000 0 = 10
    ∧ daysUntilDue 172800000 0 = 2
    ∧ (2:Int) ≤ 2 ∧ (2:Int) < 10 ∧ (10:Int) ≤ 10
    ∧ (ruleBasedScoreReasons 0 sampleTaskA).1 ≤ (ruleBasedScoreReasons 0 sampleTaskB).1 :=
  ⟨rfl, rfl, rfl, rfl, rfl, by decide, by decide, by decide, by decide, by decide,
   score_monotone_in_daysUntilDue 0 sampleTaskA sampleTaskB 864000000 172800000 10 2
     rfl rfl rfl rfl rfl (by decide) (by decide) (by decide) (by decide) (by decide)⟩

/-- C9: with the task list and `now` fixed, two runs of the scoring
function (backend or frontend) with different random draws agree on every
`suggestedPriority` and every `reason`. -/
theorem suggestions_deterministic_given_now (tasks : List Task) (now : Int) (r1 r2 : Nat → ℚ) :
    ((generateRuleBasedPrioritization tasks now r1).suggestions.map
      (fun s => (s.suggestedPriority, s.reason)))
    = ((generateRuleBasedPrioritization tasks now r2).suggestions.map
      (fun s => (s.suggestedPriority, s.reason)))
    ∧ ((fallbackPrioritization tasks now r1).suggestions.map
      (fun s => (s.suggestedPriority, s.reason)))
    = ((fallbackPrioritization tasks now r2).suggestions.map
      (fun s => (s.suggestedPriority, s.reason))) := by
  constructor <;>
  · simp only [generateRuleBasedPrioritization, fallbackPrioritization, List.map_map]
    exact map_eq_of_forall _ _ _ (fun p => rfl)

/-- C10 counterexample: the success path accepts a reply whose
`suggestions` field is the truthy non-array value `42` and passes it
through unchanged, so the result does not always hold the three fields as
lists. -/
theorem success_path_fields_cex :
    (suggestPrioritizationSuccess nonListReply).suggestions = Js.num 42
    ∧ Js.isArr (suggestPrioritizationSuccess nonListReply).suggestions = false :=
  ⟨rfl, rfl⟩

/-- C10 amended: on the success path all three fields are present (never
`undefined`), and a missing or falsy field of the remote reply is replaced
by the empty list; a truthy value, however, is passed through unchanged
even when it is not a list. -/
theorem success_path_fields_amended (data : Js) :
    ((suggestPrioritizationSuccess data).suggestions ≠ Js.undef
      ∧ (suggestPrioritizationSuccess data).insights ≠ Js.undef
      ∧ (suggestPrioritizationSuccess data).recommendations ≠ Js.undef)
    ∧ (truthy (jsGet data "suggestions") = false →
        (suggestPrioritizationSuccess data).suggestions = Js.arr [])
    ∧ (truthy (jsGet data "insights") = false →
        (suggestPrioritizationSuccess data).insights = Js.arr [])
    ∧ (truthy (jsGet data "recommendations") = false →
        (suggestPrioritizationSuccess data).recommendations = Js.arr []) :=
  ⟨⟨jsOr_ne_undef _, jsOr_ne_undef _, jsOr_ne_undef _⟩,
   fun h => jsOr_of_falsy _ _ h, fun h => jsOr_of_falsy _ _ h,
   fun h => jsOr_of_falsy _ _ h⟩

/-- C10 witness: an empty-object reply, whose missing `suggestions` field
comes back as the empty list. -/
theorem success_path_fields_amended_witness :
    truthy (jsGet (Js.obj []) "suggestions") = false ∧
    (suggestPrioritizationSuccess (Js.obj [])).suggestions = Js.arr [] :=
  ⟨rfl, (success_path_fields_amended (Js.obj [])).2.1 rfl⟩

end TaskManager
